import Mathlib

/-!
Shallow embedding of `src/agents/models/mcp_model.py` from the
`openai-agents-python-mcp` repository: the MCP bridge layer consisting of
`ServerConfig`, `MCPTool` (with `_call_mcp_tool`), `create_mcp_tools`, and
`MCPToolProvider` (`__init__`, `_get_or_create_session`,
`get_tools_from_server`, `get_all_tools`).

Python exceptions are modelled by the `PyError` sum type and fallible
operations return `Except PyError _`.  External I/O (the `mcp` client
library: `http_client`, `stdio_client`, `ClientSession.initialize`,
`ClientSession.list_tools`, `ClientSession.call_tool`) is modelled by a
`World` record of oracles keyed by server name, so that theorems quantify
over every possible behaviour of the remote servers.  The mutable
`MCPToolProvider` object is threaded explicitly as a `ProviderState`, and
session-creating operations additionally return the number of transport
connection attempts (calls to `http_client`/`stdio_client`) they performed,
instrumenting what the Python code does implicitly.
-/

namespace MCP

/-- Python exception values that the bridge code can raise or observe:
`ValueError` (raised by the bridge's own validation), `AgentsException`
(the agents framework's capability-level error) and a raw transport-level
or session-level exception coming out of the `mcp` client library. -/
inductive PyError where
  | valueError (msg : String)
  | agentsException (msg : String)
  | transportError (msg : String)
deriving DecidableEq, Repr

/-- `str(e)` of a Python exception: its message. -/
def PyError.msg : PyError → String
  | .valueError m => m
  | .agentsException m => m
  | .transportError m => m

/-- `exOk e` is true when the fallible operation `e` succeeded. -/
def exOk {α : Type} : Except PyError α → Bool
  | .ok _ => true
  | .error _ => false

/-- `hasPrefixChars s sub` is true when `sub` is an initial segment of `s`. -/
def hasPrefixChars : List Char → List Char → Bool
  | _, [] => true
  | [], _ :: _ => false
  | a :: as, b :: bs => a == b && hasPrefixChars as bs

/-- `hasSubChars s sub` is true when `sub` occurs contiguously inside `s`. -/
def hasSubChars : List Char → List Char → Bool
  | [], sub => hasPrefixChars [] sub
  | a :: t, sub => hasPrefixChars (a :: t) sub || hasSubChars t sub

/-- Substring test: true when `sub` occurs inside `s` (used to state that an
error message mentions a name). -/
def strContains (s sub : String) : Bool :=
  hasSubChars s.data sub.data

/-- Python truthiness of an `Optional[str]`: `None` and `""` are falsy. -/
def truthy : Option String → Bool
  | none => false
  | some s => s != ""

/-- Python `a or b` on `Optional[str]` values. -/
def pyOr (a b : Option String) : Option String :=
  if truthy a then a else b

/-- `ServerConfig`: configuration for connecting to an MCP server
(translation of the attributes set by `ServerConfig.__init__`). -/
structure ServerConfig where
  name : String
  base_url : Option String
  api_key : Option String
  command : Option String
  args : List String
  env : List (String × String)
deriving DecidableEq, Repr

/-- `ServerConfig.__init__`: stores the fields (with `args or []` and
`env or {}` defaults) and validates that exactly one of `base_url` and
`command` is given, raising `ValueError` otherwise.  Raising from
`__init__` discards the object, so construction is modelled as returning
`Except`. -/
def ServerConfig.init (name : String) (base_url : Option String)
    (api_key : Option String) (command : Option String)
    (args : Option (List String)) (env : Option (List (String × String))) :
    Except PyError ServerConfig :=
  if base_url.isNone && command.isNone then
    .error (.valueError
      ("Server " ++ name ++ " must have either base_url or command specified"))
  else if base_url.isSome && command.isSome then
    .error (.valueError
      ("Server " ++ name ++ " cannot have both base_url and command specified"))
  else
    .ok { name := name, base_url := base_url, api_key := api_key,
          command := command, args := args.getD [], env := env.getD [] }

/-- One entry of the list returned by `ClientSession.list_tools()`:
`{"name": ..., "description": ..., "parameters": ...}`.  The JSON parameter
schema is kept opaque as a string. -/
structure MCPToolDecl where
  name : String
  description : Option String
  parameters : String
deriving DecidableEq, Repr

/-- A `ClientSession`.  In the source a session wraps the read/write streams
obtained for one server; behaviourally it is identified by the server it was
created for, with its I/O behaviour supplied by the `World` oracles. -/
structure ClientSession where
  serverName : String
deriving DecidableEq, Repr

/-- `MCPTool`: the adapted capability; stores name, description, the owning
`ClientSession` and the raw MCP schema (`MCPTool.__init__`). -/
structure MCPTool where
  name : String
  description : String
  client_session : ClientSession
  mcp_schema : MCPToolDecl
deriving DecidableEq, Repr

/-- The behaviour of the external world: the `mcp` client library and the
remote servers.  Connection establishment is keyed by the config data the
code passes; session-level operations are keyed by the server name the
session was created for.  Each oracle either succeeds or raises. -/
structure World where
  httpConnect : String → Option String → Except PyError Unit
  stdioConnect : String → List String → List (String × String) → Except PyError Unit
  sessionInit : String → Except PyError Unit
  listTools : String → Except PyError (List MCPToolDecl)
  callTool : String → String → List (String × String) → Except PyError String

/-- `MCPTool._call_mcp_tool`: forwards the arguments to
`ClientSession.call_tool(self.name, arguments=kwargs)`; on success returns
the result, and any exception is caught and re-raised as
`AgentsException(f"MCP tool error ({self.name}): {str(e)}")`. -/
def callMcpTool (w : World) (t : MCPTool) (kwargs : List (String × String)) :
    Except PyError String :=
  match w.callTool t.client_session.serverName t.name kwargs with
  | .ok r => .ok r
  | .error e =>
      .error (.agentsException ("MCP tool error (" ++ t.name ++ "): " ++ e.msg))

/-- The `MCPTool` built by `create_mcp_tools` for one listed declaration:
`MCPTool(name=d["name"], description=d.get("description", ""), ...)`. -/
def mkMCPTool (serverName : String) (d : MCPToolDecl) : MCPTool :=
  { name := d.name, description := d.description.getD "",
    client_session := { serverName := serverName }, mcp_schema := d }

/-- `create_mcp_tools(client_session)`: queries
`client_session.list_tools()` and wraps each declaration as an `MCPTool`;
an exception from the listing propagates. -/
def create_mcp_tools (w : World) (session : ClientSession) :
    Except PyError (List MCPTool) :=
  match w.listTools session.serverName with
  | .error e => .error e
  | .ok ds => .ok (ds.map (mkMCPTool session.serverName))

/-- The adapted capabilities of the server named `name`, as produced by a
successful `create_mcp_tools` run against it (empty if listing fails; only
used in statements under a success hypothesis). -/
def adaptedToolsOf (w : World) (name : String) : List MCPTool :=
  match w.listTools name with
  | .error _ => []
  | .ok ds => ds.map (mkMCPTool name)

/-- The state of an `MCPToolProvider` object: its attributes
`_anthropic_api_key`, `_servers`, `_default_server` and the `_sessions`
cache (a Python dict, modelled as an association list in insertion order
with first-match lookup). -/
structure ProviderState where
  anthropic_api_key : String
  servers : List ServerConfig
  default_server : String
  sessions : List (String × ClientSession)
deriving DecidableEq, Repr

/-- `MCPToolProvider.__init__`: resolves the API key as
`anthropic_api_key or os.environ.get("ANTHROPIC_API_KEY")` (the ambient
environment variable is passed explicitly as `env_anthropic_api_key`),
raising if the result is falsy; defaults `servers` to `[]` and raises if
empty; defaults `_default_server` to the first server's name when the given
one is falsy; starts with an empty session cache. -/
def MCPToolProvider.init (servers : Option (List ServerConfig))
    (default_server : Option String) (anthropic_api_key : Option String)
    (env_anthropic_api_key : Option String) : Except PyError ProviderState :=
  let key := pyOr anthropic_api_key env_anthropic_api_key
  if truthy key then
    match servers.getD [] with
    | [] => .error (.valueError "At least one MCP server must be configured")
    | s0 :: rest =>
        let dflt := if truthy default_server then default_server.getD "" else s0.name
        .ok { anthropic_api_key := key.getD "", servers := s0 :: rest,
              default_server := dflt, sessions := [] }
  else
    .error (.valueError "Anthropic API key must be provided for MCP integration")

/-- The transport-connection step of `_get_or_create_session`: the code
branches on the truthiness of `server_config.base_url`, calling
`http_client(base_url, api_key)` for HTTP servers and
`stdio_client(StdioServerParameters(command, args, env))` otherwise. -/
def connectResult (w : World) (cfg : ServerConfig) : Except PyError Unit :=
  if truthy cfg.base_url then
    w.httpConnect (cfg.base_url.getD "") cfg.api_key
  else
    w.stdioConnect (cfg.command.getD "") cfg.args cfg.env

/-- `MCPToolProvider._get_or_create_session(server_name)`: returns the
cached session if present; otherwise looks up the first matching config
(raising `ValueError` if none), opens the transport, creates and
initializes a `ClientSession`, caches it under the server name and returns
it.  Exceptions from connecting or initializing propagate unchanged (the
`finally` block only closes the event loop) and nothing is cached in that
case.  The result triple is `(outcome, new provider state, number of
transport connection attempts performed by this call)`. -/
def getOrCreateSession (w : World) (st : ProviderState) (server_name : String) :
    Except PyError ClientSession × ProviderState × Nat :=
  match st.sessions.lookup server_name with
  | some s => (.ok s, st, 0)
  | none =>
    match st.servers.find? (fun s => s.name == server_name) with
    | none =>
        (.error (.valueError ("No server configuration found for " ++ server_name)),
         st, 0)
    | some cfg =>
      match connectResult w cfg with
      | .error e => (.error e, st, 1)
      | .ok _ =>
        match w.sessionInit server_name with
        | .error e => (.error e, st, 1)
        | .ok _ =>
            (.ok { serverName := server_name },
             { st with sessions :=
                 st.sessions ++ [(server_name, { serverName := server_name })] },
             1)

/-- `MCPToolProvider.get_tools_from_server(server_name)`: substitutes the
default server when `server_name is None`, gets or creates the session, and
runs `create_mcp_tools` on it; exceptions propagate. -/
def getToolsFromServer (w : World) (st : ProviderState)
    (server_name : Option String) :
    Except PyError (List MCPTool) × ProviderState × Nat :=
  let name := server_name.getD st.default_server
  match getOrCreateSession w st name with
  | (.error e, st2, n) => (.error e, st2, n)
  | (.ok session, st2, n) =>
    match create_mcp_tools w session with
    | .error e => (.error e, st2, n)
    | .ok tools => (.ok tools, st2, n)

/-- The loop body of `get_all_tools`: `for server in self._servers:
all_tools.extend(self.get_tools_from_server(server.name))`, with an
exception aborting the whole call. -/
def getAllToolsGo (w : World) (servers : List ServerConfig) (st : ProviderState)
    (acc : List MCPTool) (n : Nat) :
    Except PyError (List MCPTool) × ProviderState × Nat :=
  match servers with
  | [] => (.ok acc, st, n)
  | s :: rest =>
    match getToolsFromServer w st (some s.name) with
    | (.error e, st2, m) => (.error e, st2, n + m)
    | (.ok tools, st2, m) => getAllToolsGo w rest st2 (acc ++ tools) (n + m)

/-- `MCPToolProvider.get_all_tools()`: iterates the configured servers in
order, concatenating each server's tools. -/
def getAllTools (w : World) (st : ProviderState) :
    Except PyError (List MCPTool) × ProviderState × Nat :=
  getAllToolsGo w st.servers st [] 0

/-- Well-formedness of a provider state, as established by
`MCPToolProvider.__init__` (empty cache) and preserved by every operation:
each cached session is stored under the name it was created for, and that
name is among the configured servers. -/
def WFState (st : ProviderState) : Prop :=
  ∀ p ∈ st.sessions, p.2.serverName = p.1 ∧ ∃ cfg ∈ st.servers, cfg.name = p.1

/-- Session construction for `name` would succeed against `w`: a config is
found and both the transport connection and the session handshake succeed. -/
def sessionCreatable (w : World) (servers : List ServerConfig) (name : String) : Bool :=
  match servers.find? (fun s => s.name == name) with
  | none => false
  | some cfg => exOk (connectResult w cfg) && exOk (w.sessionInit name)

/-- Fetching the tools of server `name` from state `st` would succeed: a
session is cached or creatable, and listing the server's tools succeeds. -/
def canFetch (w : World) (st : ProviderState) (name : String) : Bool :=
  ((st.sessions.lookup name).isSome || sessionCreatable w st.servers name)
    && exOk (w.listTools name)

/-- Concrete HTTP server config used by witnesses. -/
def cfgA : ServerConfig :=
  { name := "srvA", base_url := some "http://a.example", api_key := some "ka",
    command := none, args := [], env := [] }

/-- Concrete stdio server config used by witnesses. -/
def cfgB : ServerConfig :=
  { name := "srvB", base_url := none, api_key := none,
    command := some "serve-b", args := ["--x"], env := [("K", "V")] }

/-- A concrete tool declaration advertised by server `srvA`. -/
def declA : MCPToolDecl :=
  { name := "echoA", description := some "echoes", parameters := "\x7b\x7d" }

/-- A concrete tool declaration advertised by server `srvB`. -/
def declB : MCPToolDecl :=
  { name := "echoB", description := none, parameters := "\x7b\x7d" }

/-- A world in which every connection, handshake and listing succeeds. -/
def wOk : World :=
  { httpConnect := fun _ _ => .ok ()
    stdioConnect := fun _ _ _ => .ok ()
    sessionInit := fun _ => .ok ()
    listTools := fun n => if n == "srvA" then .ok [declA] else .ok [declB]
    callTool := fun _ _ _ => .ok "result" }

/-- A world in which stdio connections (hence server `srvB`) fail. -/
def wFailB : World :=
  { wOk with stdioConnect := fun _ _ _ => .error (.transportError "boom") }

/-- A world in which every tool invocation raises a transport error. -/
def wCallFail : World :=
  { wOk with callTool := fun _ _ _ => .error (.transportError "conn dropped") }

/-- A concrete provider state with servers `srvA` and `srvB`, default
`srvA`, empty session cache — the state produced by
`MCPToolProvider.__init__([cfgA, cfgB])`. -/
def stAB : ProviderState :=
  { anthropic_api_key := "key", servers := [cfgA, cfgB],
    default_server := "srvA", sessions := [] }

/-- The state `stAB` after the session for `srvA` has been created and
cached. -/
def stAB1 : ProviderState :=
  { stAB with sessions := [("srvA", { serverName := "srvA" })] }

lemma exOk_iff {α : Type} (e : Except PyError α) :
    exOk e = true ↔ ∃ a, e = .ok a := by
  cases e <;> simp [exOk]

lemma exOk_false_iff {α : Type} (e : Except PyError α) :
    exOk e = false ↔ ∃ er, e = .error er := by
  cases e <;> simp [exOk]

lemma lookup_append (l l' : List (String × ClientSession)) (k : String) :
    (l ++ l').lookup k = (l.lookup k).or (l'.lookup k) := by
  induction l with
  | nil => simp [List.lookup]
  | cons p t ih =>
      cases hpk : (k == p.fst) with
      | true => simp [List.lookup, hpk]
      | false => simpa [List.lookup, hpk] using ih

lemma mem_of_lookup {l : List (String × ClientSession)} {k : String}
    {v : ClientSession} (h : l.lookup k = some v) : (k, v) ∈ l := by
  induction l with
  | nil => simp [List.lookup] at h
  | cons p t ih =>
      cases hpk : (k == p.fst) with
      | true =>
          simp only [List.lookup, hpk] at h
          cases h
          simp only [List.mem_cons]
          left
          cases p with
          | mk k' v' => simpa using beq_iff_eq.mp hpk
      | false =>
          simp only [List.lookup, hpk] at h
          exact List.mem_cons_of_mem _ (ih h)

lemma lookup_singleton_ne {k name : String} {v : ClientSession}
    (h : k ≠ name) : ([(name, v)] : List (String × ClientSession)).lookup k = none := by
  simp [List.lookup, beq_false_of_ne h]

lemma gocs_cached {w : World} {st : ProviderState} {name : String}
    {s : ClientSession} (h : st.sessions.lookup name = some s) :
    getOrCreateSession w st name = (.ok s, st, 0) := by
  simp [getOrCreateSession, h]

lemma gocs_create {w : World} {st : ProviderState} {name : String}
    {cfg : ServerConfig} (h0 : st.sessions.lookup name = none)
    (h1 : st.servers.find? (fun s => s.name == name) = some cfg)
    (h2 : exOk (connectResult w cfg) = true)
    (h3 : exOk (w.sessionInit name) = true) :
    getOrCreateSession w st name =
      (.ok { serverName := name },
       { st with sessions := st.sessions ++ [(name, { serverName := name })] },
       1) := by
  obtain ⟨u, hu⟩ := (exOk_iff _).1 h2
  obtain ⟨u', hu'⟩ := (exOk_iff _).1 h3
  simp [getOrCreateSession, h0, h1, hu, hu']

lemma gocs_ok_inv {w : World} {st : ProviderState} {name : String}
    {s : ClientSession} {st1 : ProviderState} {n : Nat}
    (h : getOrCreateSession w st name = (.ok s, st1, n)) :
    (st.sessions.lookup name = some s ∧ st1 = st ∧ n = 0) ∨
    (st.sessions.lookup name = none ∧
     sessionCreatable w st.servers name = true ∧
     s = { serverName := name } ∧
     st1 = { st with sessions := st.sessions ++ [(name, { serverName := name })] } ∧
     n = 1) := by
  unfold getOrCreateSession at h
  split at h
  case h_1 s' heq =>
      left
      simp only [Prod.mk.injEq, Except.ok.injEq] at h
      exact ⟨by rw [heq, h.1], h.2.1.symm, h.2.2.symm⟩
  case h_2 heq =>
      right
      split at h
      · simp at h
      case h_2 cfg hfind =>
        split at h
        · simp at h
        case h_2 u hconn =>
          split at h
          · simp at h
          case h_2 u' hinit =>
            simp only [Prod.mk.injEq, Except.ok.injEq] at h
            refine ⟨heq, ?_, h.1.symm, h.2.1.symm, h.2.2.symm⟩
            simp [sessionCreatable, hfind, hconn, hinit, exOk]

lemma gocs_err_inv {w : World} {st : ProviderState} {name : String}
    {e : PyError} {st1 : ProviderState} {n : Nat}
    (h : getOrCreateSession w st name = (.error e, st1, n)) :
    st1 = st ∧ st.sessions.lookup name = none ∧
    ((e = .valueError ("No server configuration found for " ++ name) ∧ n = 0) ∨
     (∃ cfg, st.servers.find? (fun s => s.name == name) = some cfg ∧
        connectResult w cfg = .error e ∧ n = 1) ∨
     (w.sessionInit name = .error e ∧ n = 1)) := by
  unfold getOrCreateSession at h
  split at h
  · simp at h
  case h_2 heq =>
    split at h
    case h_1 hfind =>
        simp only [Prod.mk.injEq, Except.error.injEq] at h
        exact ⟨h.2.1.symm, heq, Or.inl ⟨h.1.symm, h.2.2.symm⟩⟩
    case h_2 cfg hfind =>
      split at h
      case h_1 e' hconn =>
          simp only [Prod.mk.injEq, Except.error.injEq] at h
          refine ⟨h.2.1.symm, heq, Or.inr (Or.inl ⟨cfg, hfind, ?_, h.2.2.symm⟩)⟩
          rw [hconn, h.1]
      case h_2 u hconn =>
        split at h
        case h_1 e' hinit =>
            simp only [Prod.mk.injEq, Except.error.injEq] at h
            refine ⟨h.2.1.symm, heq, Or.inr (Or.inr ⟨?_, h.2.2.symm⟩)⟩
            rw [hinit, h.1]
        · simp at h

lemma gocs_state_inv {w : World} {st : ProviderState} {name : String}
    {r : Except PyError ClientSession} {st1 : ProviderState} {n : Nat}
    (h : getOrCreateSession w st name = (r, st1, n)) :
    st1 = st ∨
    (st1 = { st with sessions := st.sessions ++ [(name, { serverName := name })] } ∧
     sessionCreatable w st.servers name = true ∧
     st.sessions.lookup name = none) := by
  cases r with
  | error e => exact Or.inl (gocs_err_inv h).1
  | ok s =>
      rcases gocs_ok_inv h with ⟨_, hst, _⟩ | ⟨h0, hc, _, hst, _⟩
      · exact Or.inl hst
      · exact Or.inr ⟨hst, hc, h0⟩

lemma gocs_preserves_config {w : World} {st : ProviderState} {name : String}
    {r : Except PyError ClientSession} {st1 : ProviderState} {n : Nat}
    (h : getOrCreateSession w st name = (r, st1, n)) :
    st1.servers = st.servers ∧ st1.default_server = st.default_server := by
  rcases gocs_state_inv h with hst | ⟨hst, _, _⟩ <;> rw [hst] <;> exact ⟨rfl, rfl⟩

lemma gocs_preserves_wf {w : World} {st : ProviderState} {name : String}
    {r : Except PyError ClientSession} {st1 : ProviderState} {n : Nat}
    (hwf : WFState st) (h : getOrCreateSession w st name = (r, st1, n)) :
    WFState st1 := by
  rcases gocs_state_inv h with hst | ⟨hst, hc, _⟩
  · rwa [hst]
  · rw [hst]
    intro p hp
    simp only [List.mem_append, List.mem_singleton] at hp
    rcases hp with hp | hp
    · exact hwf p hp
    · subst hp
      refine ⟨rfl, ?_⟩
      unfold sessionCreatable at hc
      split at hc
      · simp at hc
      case h_2 cfg hfind =>
        refine ⟨cfg, List.mem_of_find?_eq_some hfind, ?_⟩
        have hbeq : (cfg.name == name) = true := by
          simpa using List.find?_some hfind
        exact beq_iff_eq.mp hbeq

lemma gocs_preserves_canFetch {w : World} {st : ProviderState} {name : String}
    {r : Except PyError ClientSession} {st1 : ProviderState} {n : Nat}
    (h : getOrCreateSession w st name = (r, st1, n)) (k : String) :
    canFetch w st1 k = canFetch w st k := by
  rcases gocs_state_inv h with hst | ⟨hst, hc, h0⟩
  · rw [hst]
  · rw [hst]
    unfold canFetch
    simp only []
    by_cases hk : k = name
    · subst hk
      rw [lookup_append, h0]
      simp [List.lookup, hc]
    · rw [lookup_append, lookup_singleton_ne hk, Option.or_none]

lemma gocs_ok_serverName {w : World} {st : ProviderState} {name : String}
    {s : ClientSession} {st1 : ProviderState} {n : Nat} (hwf : WFState st)
    (h : getOrCreateSession w st name = (.ok s, st1, n)) :
    s.serverName = name := by
  rcases gocs_ok_inv h with ⟨hl, _, _⟩ | ⟨_, _, hs, _, _⟩
  · exact (hwf (name, s) (mem_of_lookup hl)).1
  · rw [hs]

lemma gocs_ok_of_obtainable {w : World} {st : ProviderState} {name : String}
    (h : (st.sessions.lookup name).isSome = true ∨
         sessionCreatable w st.servers name = true) :
    ∃ s st1 n, getOrCreateSession w st name = (.ok s, st1, n) := by
  rcases h with h | h
  · obtain ⟨s, hs⟩ := Option.isSome_iff_exists.mp h
    exact ⟨s, st, 0, gocs_cached hs⟩
  · cases h0 : st.sessions.lookup name with
    | some s => exact ⟨s, st, 0, gocs_cached h0⟩
    | none =>
        unfold sessionCreatable at h
        split at h
        · simp at h
        case h_2 cfg hfind =>
          rw [Bool.and_eq_true] at h
          exact ⟨_, _, _, gocs_create h0 hfind h.1 h.2⟩

lemma gtfs_none_eq {w : World} {st : ProviderState} :
    getToolsFromServer w st none = getToolsFromServer w st (some st.default_server) := by
  rfl

lemma gtfs_ok_inv {w : World} {st : ProviderState} {name : String}
    {tools : List MCPTool} {st2 : ProviderState} {m : Nat}
    (h : getToolsFromServer w st (some name) = (.ok tools, st2, m)) :
    ∃ s, getOrCreateSession w st name = (.ok s, st2, m) ∧
      create_mcp_tools w s = .ok tools := by
  unfold getToolsFromServer at h
  simp only [Option.getD_some] at h
  split at h
  · simp at h
  case h_2 s st2' n heq =>
    split at h
    · simp at h
    case h_2 tl hcreate =>
      simp only [Prod.mk.injEq, Except.ok.injEq] at h
      refine ⟨s, ?_, ?_⟩
      · rw [heq, h.2.1, h.2.2]
      · rw [hcreate, h.1]

lemma gtfs_ok_of {w : World} {st : ProviderState} {name : String}
    {s : ClientSession} {st2 : ProviderState} {m : Nat} {tools : List MCPTool}
    (h1 : getOrCreateSession w st name = (.ok s, st2, m))
    (h2 : create_mcp_tools w s = .ok tools) :
    getToolsFromServer w st (some name) = (.ok tools, st2, m) := by
  unfold getToolsFromServer
  simp [h1, h2]

lemma gtfs_err_inv {w : World} {st : ProviderState} {name : String}
    {e : PyError} {st2 : ProviderState} {m : Nat}
    (h : getToolsFromServer w st (some name) = (.error e, st2, m)) :
    (getOrCreateSession w st name = (.error e, st2, m)) ∨
    (∃ s, getOrCreateSession w st name = (.ok s, st2, m) ∧
       create_mcp_tools w s = .error e) := by
  unfold getToolsFromServer at h
  simp only [Option.getD_some] at h
  split at h
  case h_1 e' st2' n heq =>
      simp only [Prod.mk.injEq, Except.error.injEq] at h
      left
      rw [heq, h.1, h.2.1, h.2.2]
  case h_2 s st2' n heq =>
    split at h
    case h_1 e' hcreate =>
        simp only [Prod.mk.injEq, Except.error.injEq] at h
        right
        refine ⟨s, ?_, ?_⟩
        · rw [heq, h.2.1, h.2.2]
        · rw [hcreate, h.1]
    · simp at h

lemma create_of_listTools {w : World} {s : ClientSession} {name : String}
    {ds : List MCPToolDecl} (hn : s.serverName = name)
    (hl : w.listTools name = .ok ds) :
    create_mcp_tools w s = .ok (adaptedToolsOf w name) := by
  unfold create_mcp_tools adaptedToolsOf
  rw [hn, hl]

lemma create_ok_inv {w : World} {s : ClientSession} {tools : List MCPTool}
    (h : create_mcp_tools w s = .ok tools) :
    ∃ ds, w.listTools s.serverName = .ok ds ∧ tools = ds.map (mkMCPTool s.serverName) := by
  unfold create_mcp_tools at h
  split at h
  · simp at h
  case h_2 ds hl =>
    exact ⟨ds, hl, by simpa using h.symm⟩

lemma go_ok_inv {w : World} :
    ∀ (servers : List ServerConfig) (st : ProviderState) (acc : List MCPTool)
      (n : Nat) {tools : List MCPTool} {st2 : ProviderState} {N : Nat},
    WFState st →
    getAllToolsGo w servers st acc n = (.ok tools, st2, N) →
    tools = acc ++ servers.flatMap (fun s => adaptedToolsOf w s.name) ∧
    ∀ c ∈ servers, canFetch w st c.name = true := by
  intro servers
  induction servers with
  | nil =>
      intro st acc n tools st2 N hwf h
      unfold getAllToolsGo at h
      simp only [Prod.mk.injEq, Except.ok.injEq] at h
      simp [h.1.symm]
  | cons c rest ih =>
      intro st acc n tools st2 N hwf h
      unfold getAllToolsGo at h
      split at h
      · simp at h
      case h_2 tl st1 m heq =>
        obtain ⟨s, hg, hc⟩ := gtfs_ok_inv heq
        have hsn : s.serverName = c.name := gocs_ok_serverName hwf hg
        obtain ⟨ds, hl, htl⟩ := create_ok_inv hc
        rw [hsn] at hl
        have htl' : tl = adaptedToolsOf w c.name := by
          rw [htl, hsn]
          unfold adaptedToolsOf
          rw [hl]
        have hwf1 : WFState st1 := gocs_preserves_wf hwf hg
        obtain ⟨hrec, hall⟩ := ih st1 (acc ++ tl) (n + m) hwf1 h
        constructor
        · rw [hrec, htl', List.flatMap_cons, List.append_assoc]
        · intro c' hc'
          rcases List.mem_cons.mp hc' with hc' | hc'
          · subst hc'
            unfold canFetch
            rcases gocs_ok_inv hg with ⟨hlk, _, _⟩ | ⟨_, hcr, _, _, _⟩
            · simp [hlk, hl, exOk]
            · simp [hcr, hl, exOk]
          · rw [← gocs_preserves_canFetch hg c'.name]
            exact hall c' hc'

lemma go_ok_of {w : World} :
    ∀ (servers : List ServerConfig) (st : ProviderState) (acc : List MCPTool)
      (n : Nat),
    WFState st →
    (∀ c ∈ servers, canFetch w st c.name = true) →
    ∃ st2 N, getAllToolsGo w servers st acc n =
      (.ok (acc ++ servers.flatMap fun s => adaptedToolsOf w s.name), st2, N) := by
  intro servers
  induction servers with
  | nil =>
      intro st acc n hwf hall
      exact ⟨st, n, by simp [getAllToolsGo]⟩
  | cons c rest ih =>
      intro st acc n hwf hall
      have hcf : canFetch w st c.name = true := hall c (List.mem_cons_self c rest)
      unfold canFetch at hcf
      rw [Bool.and_eq_true, Bool.or_eq_true] at hcf
      obtain ⟨s, st1, m, hg⟩ := gocs_ok_of_obtainable hcf.1
      have hsn : s.serverName = c.name := gocs_ok_serverName hwf hg
      obtain ⟨ds, hl⟩ := (exOk_iff _).1 hcf.2
      have hcreate : create_mcp_tools w s = .ok (adaptedToolsOf w c.name) :=
        create_of_listTools hsn hl
      have hstep := gtfs_ok_of hg hcreate
      have hwf1 : WFState st1 := gocs_preserves_wf hwf hg
      have hall1 : ∀ c' ∈ rest, canFetch w st1 c'.name = true := by
        intro c' hc'
        rw [gocs_preserves_canFetch hg c'.name]
        exact hall c' (List.mem_cons_of_mem c hc')
      obtain ⟨st2, N, hrec⟩ :=
        ih st1 (acc ++ adaptedToolsOf w c.name) (n + m) hwf1 hall1
      refine ⟨st2, N, ?_⟩
      unfold getAllToolsGo
      rw [hstep]
      show getAllToolsGo w rest st1 (acc ++ adaptedToolsOf w c.name) (n + m) = _
      rw [hrec, List.flatMap_cons, List.append_assoc]

/-- C1: for every world behaviour, tool and argument mapping, a call through
`MCPTool._call_mcp_tool` either returns the session call's result unchanged,
or — when the underlying `call_tool` raises any error — raises an
`AgentsException` whose message carries the capability's name and the
original cause (`str(e)`); in particular no raw transport or session
exception (`transportError`/`valueError`) ever propagates past the
adapter. -/
theorem callMcpTool_uniform_error (w : World) (t : MCPTool)
    (kwargs : List (String × String)) :
    ((∃ r, w.callTool t.client_session.serverName t.name kwargs = .ok r ∧
           callMcpTool w t kwargs = .ok r) ∨
     (∃ e, w.callTool t.client_session.serverName t.name kwargs = .error e ∧
           callMcpTool w t kwargs =
             .error (.agentsException
               ("MCP tool error (" ++ t.name ++ "): " ++ e.msg)))) ∧
    (∀ m, callMcpTool w t kwargs ≠ .error (.transportError m) ∧
          callMcpTool w t kwargs ≠ .error (.valueError m)) := by
  cases h : w.callTool t.client_session.serverName t.name kwargs with
  | ok r =>
      refine ⟨Or.inl ⟨r, rfl, by simp [callMcpTool, h]⟩, ?_⟩
      intro m
      constructor <;> simp [callMcpTool, h]
  | error e =>
      refine ⟨Or.inr ⟨e, rfl, by simp [callMcpTool, h]⟩, ?_⟩
      intro m
      constructor <;> simp [callMcpTool, h]

/-- C1 witness: a concrete injected transport failure surfaces as the
capability-level `AgentsException` naming the tool and carrying the
cause. -/
theorem callMcpTool_uniform_error_witness :
    callMcpTool wCallFail (mkMCPTool "srvA" declA) [("text", "hi")] =
      .error (.agentsException "MCP tool error (echoA): conn dropped") := by
  rcases (callMcpTool_uniform_error wCallFail (mkMCPTool "srvA" declA)
      [("text", "hi")]).1 with ⟨r, hr, _⟩ | ⟨e, he, hres⟩
  · simp [wCallFail, wOk] at hr
  · simp only [wCallFail, wOk] at he
    cases he
    exact hres

/-- C2: `get_all_tools` iterates the configured servers in order: every
successful call returns exactly the concatenation, in configuration order,
of each server's adapted capabilities; and if any configured server's
capabilities cannot be fetched, the whole call raises and no partial list
(in particular none of the earlier servers' capabilities) is returned. -/
theorem getAllTools_concat_failfast (w : World) (st : ProviderState)
    (hwf : WFState st) :
    (∀ tools st2 N, getAllTools w st = (.ok tools, st2, N) →
        tools = st.servers.flatMap fun s => adaptedToolsOf w s.name) ∧
    (∀ c ∈ st.servers, canFetch w st c.name = false →
        ∃ e st2 N, getAllTools w st = (.error e, st2, N)) := by
  constructor
  · intro tools st2 N h
    unfold getAllTools at h
    exact (go_ok_inv st.servers st [] 0 hwf h).1
  · intro c hc hcf
    rcases hres : getAllTools w st with ⟨r, st2, N⟩
    cases r with
    | error e => exact ⟨e, st2, N, rfl⟩
    | ok tools =>
        unfold getAllTools at hres
        have hall := (go_ok_inv st.servers st [] 0 hwf hres).2
        rw [hall c hc] at hcf
        cases hcf

/-- C2 witness: over the configured servers `[srvA, srvB]` in a world where
`srvB`'s stdio connection fails, the whole aggregation fails. -/
theorem getAllTools_concat_failfast_witness :
    ∃ e st2 N, getAllTools wFailB stAB = (.error e, st2, N) :=
  (getAllTools_concat_failfast wFailB stAB
      (fun p hp => absurd hp (by simp [stAB]))).2
    cfgB (by simp [stAB]) (by rfl)

/-- C3: for a server name with no cached session, a successful
get-or-create call performs exactly one transport connection attempt and
appends the constructed session to the cache, and a second sequential call
for the same name returns that same cached session with zero further
transport connection attempts and an unchanged cache. -/
theorem getOrCreateSession_caches (w : World) (st : ProviderState)
    (name : String) (s : ClientSession) (st1 : ProviderState) (n1 : Nat)
    (h0 : st.sessions.lookup name = none)
    (h : getOrCreateSession w st name = (.ok s, st1, n1)) :
    n1 = 1 ∧
    st1.sessions = st.sessions ++ [(name, s)] ∧
    getOrCreateSession w st1 name = (.ok s, st1, 0) := by
  rcases gocs_ok_inv h with ⟨hl, _, _⟩ | ⟨_, _, hs, hst, hn⟩
  · rw [h0] at hl; cases hl
  · subst hs
    refine ⟨hn, by rw [hst], ?_⟩
    apply gocs_cached
    rw [hst]
    show (st.sessions ++ [(name, ({ serverName := name } : ClientSession))]).lookup name = _
    rw [lookup_append, h0]
    simp [List.lookup]

/-- C3 witness: after creating the session for `srvA` from the fresh
two-server state, the second call returns the cached session with zero
connection attempts. -/
theorem getOrCreateSession_caches_witness :
    getOrCreateSession wOk stAB1 "srvA" =
      (.ok { serverName := "srvA" }, stAB1, 0) :=
  (getOrCreateSession_caches wOk stAB "srvA" { serverName := "srvA" }
      stAB1 1 rfl rfl).2.2

/-- C4: `ServerConfig.__init__` with neither `base_url` nor `command`, or
with both, raises a configuration `ValueError` whose message names the
offending server, with no other effect; with exactly one of the two it
returns the fully populated descriptor. -/
theorem serverConfig_validation (name : String)
    (base_url api_key command : Option String) (args : Option (List String))
    (env : Option (List (String × String))) :
    (base_url = none → command = none →
       ServerConfig.init name base_url api_key command args env =
         .error (.valueError
           ("Server " ++ name ++ " must have either base_url or command specified"))) ∧
    (base_url.isSome = true → command.isSome = true →
       ServerConfig.init name base_url api_key command args env =
         .error (.valueError
           ("Server " ++ name ++ " cannot have both base_url and command specified"))) ∧
    ((base_url.isSome = true ∧ command = none) ∨
     (base_url = none ∧ command.isSome = true) →
       ServerConfig.init name base_url api_key command args env =
         .ok { name := name, base_url := base_url, api_key := api_key,
               command := command, args := args.getD [], env := env.getD [] }) := by
  refine ⟨?_, ?_, ?_⟩
  · intro h1 h2
    subst h1; subst h2
    rfl
  · intro h1 h2
    rcases Option.isSome_iff_exists.mp h1 with ⟨u, hu⟩
    rcases Option.isSome_iff_exists.mp h2 with ⟨v, hv⟩
    subst hu; subst hv
    rfl
  · rintro (⟨h1, h2⟩ | ⟨h1, h2⟩)
    · rcases Option.isSome_iff_exists.mp h1 with ⟨u, hu⟩
      subst hu; subst h2
      rfl
    · rcases Option.isSome_iff_exists.mp h2 with ⟨v, hv⟩
      subst h1; subst hv
      rfl

/-- C4 witness: concrete constructions covering the neither-case, the
both-case and a valid HTTP-only case. -/
theorem serverConfig_validation_witness :
    ServerConfig.init "srvX" none none none none none =
      .error (.valueError "Server srvX must have either base_url or command specified") ∧
    ServerConfig.init "srvX" (some "http://x") none (some "run") none none =
      .error (.valueError "Server srvX cannot have both base_url and command specified") ∧
    ServerConfig.init "srvX" (some "http://x") none none none none =
      .ok { name := "srvX", base_url := some "http://x", api_key := none,
            command := none, args := [], env := [] } :=
  ⟨(serverConfig_validation "srvX" none none none none none).1 rfl rfl,
   (serverConfig_validation "srvX" (some "http://x") none (some "run") none none).2.1 rfl rfl,
   (serverConfig_validation "srvX" (some "http://x") none none none none).2.2
     (Or.inl ⟨rfl, rfl⟩)⟩

/-- C5 counterexample: when the stdio connection for server `srvB` raises a
transport error `"boom"`, `_get_or_create_session` raises that raw
transport error itself — not an error wrapped with the server name: the
surfaced message does not mention `srvB` at all. -/
theorem getOrCreateSession_error_unwrapped_cex :
    getOrCreateSession wFailB stAB "srvB" =
      (.error (.transportError "boom"), stAB, 1) ∧
    strContains (PyError.transportError "boom").msg "srvB" = false := by
  constructor <;> rfl

/-- C5 (amended): if constructing or initializing a session fails during a
get-or-create call, the failure raised to the caller is exactly what the
transport connection, the session handshake, or the config lookup raised —
unwrapped, with no server-name context added — and the failed attempt is
not cached: the name-to-session mapping is unchanged, and a later call for
the same server name runs construction again with the same outcome. -/
theorem getOrCreateSession_error_not_cached (w : World) (st : ProviderState)
    (name : String) (e : PyError) (st2 : ProviderState) (n : Nat)
    (h : getOrCreateSession w st name = (.error e, st2, n)) :
    st2 = st ∧
    ((e = .valueError ("No server configuration found for " ++ name) ∧ n = 0) ∨
     (∃ cfg, st.servers.find? (fun s => s.name == name) = some cfg ∧
        connectResult w cfg = .error e ∧ n = 1) ∨
     (w.sessionInit name = .error e ∧ n = 1)) ∧
    getOrCreateSession w st name = (.error e, st, n) := by
  obtain ⟨hst, _, hsrc⟩ := gocs_err_inv h
  refine ⟨hst, hsrc, ?_⟩
  rw [hst] at h
  exact h

/-- C5 witness: the failed creation of `srvB` leaves the state unchanged,
so the retry performs construction (and a new connection attempt) again. -/
theorem getOrCreateSession_error_not_cached_witness :
    stAB = stAB ∧
    getOrCreateSession wFailB stAB "srvB" =
      (.error (.transportError "boom"), stAB, 1) :=
  ⟨(getOrCreateSession_error_not_cached wFailB stAB "srvB"
      (.transportError "boom") stAB 1 rfl).1,
   (getOrCreateSession_error_not_cached wFailB stAB "srvB"
      (.transportError "boom") stAB 1 rfl).2.2⟩

/-- C7: `get_tools_from_server` with the server name omitted behaves
exactly as with the configured default server's name; and for any name
whose session is cached or creatable and whose listing succeeds, it returns
exactly that server's adapted capabilities. -/
theorem getToolsFromServer_resolution (w : World) (st : ProviderState)
    (hwf : WFState st) :
    getToolsFromServer w st none =
      getToolsFromServer w st (some st.default_server) ∧
    ∀ name, ((st.sessions.lookup name).isSome = true ∨
             sessionCreatable w st.servers name = true) →
      ∀ ds, w.listTools name = .ok ds →
      ∃ st2 k, getToolsFromServer w st (some name) =
        (.ok (adaptedToolsOf w name), st2, k) := by
  refine ⟨gtfs_none_eq, ?_⟩
  intro name hobt ds hl
  obtain ⟨s, st1, m, hg⟩ := gocs_ok_of_obtainable hobt
  have hsn := gocs_ok_serverName hwf hg
  exact ⟨st1, m, gtfs_ok_of hg (create_of_listTools hsn hl)⟩

/-- C7 witness: naming `srvA` explicitly returns exactly `srvA`'s adapted
capabilities. -/
theorem getToolsFromServer_resolution_witness :
    ∃ st2 k, getToolsFromServer wOk stAB (some "srvA") =
      (.ok (adaptedToolsOf wOk "srvA"), st2, k) :=
  (getToolsFromServer_resolution wOk stAB
      (fun p hp => absurd hp (by simp [stAB]))).2
    "srvA" (Or.inr rfl) [declA] rfl

/-- C8: for a server name that is not among the configured servers (in any
well-formed provider state), `_get_or_create_session` raises a `ValueError`
whose message names the unconfigured server, performs zero transport
connection attempts, and leaves the state unchanged. -/
theorem getOrCreateSession_unknown_server (w : World) (st : ProviderState)
    (name : String) (hwf : WFState st)
    (hn : ∀ cfg ∈ st.servers, cfg.name ≠ name) :
    getOrCreateSession w st name =
      (.error (.valueError ("No server configuration found for " ++ name)),
       st, 0) := by
  have h0 : st.sessions.lookup name = none := by
    cases hl : st.sessions.lookup name with
    | none => rfl
    | some s =>
        obtain ⟨_, cfg, hcfg, hname⟩ := hwf (name, s) (mem_of_lookup hl)
        exact absurd hname (hn cfg hcfg)
  have hf : st.servers.find? (fun s => s.name == name) = none := by
    rw [List.find?_eq_none]
    intro cfg hcfg
    simp only [beq_iff_eq]
    exact hn cfg hcfg
  simp [getOrCreateSession, h0, hf]

/-- C8 witness: the unconfigured name `nope` is rejected with zero
connection attempts. -/
theorem getOrCreateSession_unknown_server_witness :
    getOrCreateSession wOk stAB "nope" =
      (.error (.valueError "No server configuration found for nope"),
       stAB, 0) :=
  getOrCreateSession_unknown_server wOk stAB "nope"
    (fun p hp => absurd hp (by simp [stAB]))
    (by intro cfg hcfg; fin_cases hcfg <;> simp [cfgA, cfgB])

/-- C9 counterexample: constructing a `ServerConfig` with the empty name
and a `base_url` succeeds, yielding a descriptor with an empty name — so
the non-empty-name half of the claimed invariant is not enforced by the
code. -/
theorem serverConfig_empty_name_cex :
    ServerConfig.init "" (some "http://x") none none none none =
      .ok { name := "", base_url := some "http://x", api_key := none,
            command := none, args := [], env := [] } := by
  rfl

/-- C9 (amended): every successfully constructed `ServerConfig` has exactly
one transport variant populated (`base_url` present iff `command` absent)
and carries the given name unchanged; the name is not validated and may be
empty. -/
theorem serverConfig_exactly_one_transport (name : String)
    (base_url api_key command : Option String) (args : Option (List String))
    (env : Option (List (String × String))) (cfg : ServerConfig)
    (h : ServerConfig.init name base_url api_key command args env = .ok cfg) :
    (cfg.base_url.isSome = true ↔ cfg.command.isSome = false) ∧
    cfg.name = name := by
  unfold ServerConfig.init at h
  split at h
  · simp at h
  case isFalse h1 =>
    split at h
    · simp at h
    case isFalse h2 =>
      simp only [Except.ok.injEq] at h
      refine ⟨?_, by rw [← h]⟩
      rw [← h]
      cases base_url <;> cases command <;> simp_all

/-- C9 witness: the stdio config `cfgB` as constructed satisfies the
exactly-one-transport invariant. -/
theorem serverConfig_exactly_one_transport_witness :
    (cfgB.base_url.isSome = true ↔ cfgB.command.isSome = false) ∧
    cfgB.name = "srvB" :=
  serverConfig_exactly_one_transport "srvB" none none (some "serve-b")
    (some ["--x"]) (some [("K", "V")]) cfgB rfl

/-- C10 (implicit): constructing `MCPToolProvider` with a non-empty server
list, no explicit default server and a usable API key succeeds with the
default server set to the first configured server's name (and an empty
session cache), so a listing call with the name omitted targets the first
configured server; constructing with an empty or absent server list always
fails. -/
theorem providerInit_default_server (s0 : ServerConfig)
    (rest : List ServerConfig) (key env_key : Option String)
    (h : truthy (pyOr key env_key) = true) :
    MCPToolProvider.init (some (s0 :: rest)) none key env_key =
      .ok { anthropic_api_key := (pyOr key env_key).getD "",
            servers := s0 :: rest, default_server := s0.name, sessions := [] } ∧
    (∀ d k ek, exOk (MCPToolProvider.init (some []) d k ek) = false) ∧
    (∀ d k ek, exOk (MCPToolProvider.init none d k ek) = false) ∧
    (∀ w, getToolsFromServer w
        { anthropic_api_key := (pyOr key env_key).getD "",
          servers := s0 :: rest, default_server := s0.name, sessions := [] }
        none =
      getToolsFromServer w
        { anthropic_api_key := (pyOr key env_key).getD "",
          servers := s0 :: rest, default_server := s0.name, sessions := [] }
        (some s0.name)) := by
  refine ⟨?_, ?_, ?_, fun w => gtfs_none_eq⟩
  · have hd : truthy (none : Option String) = false := rfl
    simp [MCPToolProvider.init, h, hd]
  · intro d k ek
    unfold MCPToolProvider.init
    cases htr : truthy (pyOr k ek) <;> simp [htr, exOk]
  · intro d k ek
    unfold MCPToolProvider.init
    cases htr : truthy (pyOr k ek) <;> simp [htr, exOk]

/-- C10 witness: constructing with `[cfgA, cfgB]`, no default server and an
explicit API key yields default server `srvA` (the first configured). -/
theorem providerInit_default_server_witness :
    MCPToolProvider.init (some [cfgA, cfgB]) none (some "key") none =
      .ok { anthropic_api_key := "key", servers := [cfgA, cfgB],
            default_server := "srvA", sessions := [] } :=
  (providerInit_default_server cfgA [cfgB] (some "key") none rfl).1

end MCP
